import Mathlib

/-
Verification of the AirlineChat flow-orchestration gateway.

Shallow embedding of:
- api-gateway/index.js   : the per-message intent switch (socket.on message),
                           the identify handler and session registry,
- adapters.js            : searchFlights / bookTicket / checkIn,
- aiService.js           : detectIntent and its failure fallback,
- cosmosDbService.js     : getConversationHistory (transcript hydration).

External effects (HTTP calls, the OpenAI model, the Cosmos store) are made
explicit: HTTP outcomes are oracle inputs, the response generator is an
oracle function, and the transcript store is a list of saved messages.
-/

namespace AirlineChat

/-- A JSON parameter object (parameter name to value), as an association
list.  Mirrors the plain JS objects held in intent.parameters,
intent.collectedParams and session.collectedParams. -/
abbrev Params := List (String × String)

/-- A structured intent as produced by the external classifier
(aiService.detectIntent returns JSON.parse of the model output, so every
field may be absent; the gateway reads them without validation).
isFlowComplete models JS truthiness: an absent field is falsy. -/
structure Intent where
  action : String
  parameters : Option Params := none
  response : Option String := none
  flow : Option String := none
  nextStep : Option Nat := none
  collectedParams : Option Params := none
  isFlowComplete : Bool := false
deriving DecidableEq

/-- The per-connection flow state held in userSessions[socket.id]
(index.js lines 60-66): activeFlow and currentStep are null or a value,
collectedParams starts as the empty object.  The conversation history is
modelled separately for the transcript claims. -/
structure Session where
  activeFlow : Option String
  currentStep : Option Nat
  collectedParams : Params
deriving DecidableEq

/-- The fresh session created on identify (index.js lines 60-66). -/
def Session.init : Session := ⟨none, none, []⟩

/-- Outcome of one axios HTTP call, as the adapter observes it:
a 2xx response with a body, a non-2xx response (axios throws an error
carrying error.response, whose body may carry an errors field), or a
network-level failure with only a message. -/
inductive HttpOutcome where
  | ok (status : Nat) (data : String)
  | httpError (status : Nat) (data : String) (errors : Option String)
  | netError (msg : String)
deriving DecidableEq

/-- Return shape of the bookTicket / checkIn adapters (adapters.js):
the spread success envelope, the structured API-error envelope built in
the catch when error.response exists, or the plain failed envelope for
network errors.  These adapters return on every path and never throw. -/
inductive AdapterEnvelope where
  | success (data : String) (statusCode : Nat)
  | apiError (statusCode : Nat) (errorData : String) (message : String)
  | failed (message : String)
deriving DecidableEq

/-- adapters.js ApiAdapters.searchFlights: formats the parameters and
issues a GET; on success returns response.data, on any axios error it
rethrows Failed to search flights: message — the only adapter that can
throw to its caller.  A missing parameters object makes the field access
throw inside the try, which is rethrown the same way. -/
def searchFlights (params : Option Params) (http : Option Params → HttpOutcome) :
    Except String String :=
  match params with
  | none => .error "Failed to search flights: Cannot read properties of undefined (reading \x27dateFrom\x27)"
  | some p =>
    match http (some p) with
    | .ok _ d => .ok d
    | .httpError s _ _ =>
        .error ("Failed to search flights: Request failed with status code " ++ toString s)
    | .netError m => .error ("Failed to search flights: " ++ m)

/-- adapters.js ApiAdapters.bookTicket: posts the formatted ticket data;
every failure is caught and returned as an envelope (never rethrown).
A missing ticketData object throws on field access inside the try and is
returned through the no-response catch branch.  ensureAuthenticated is
called first but catches internally and its result is ignored. -/
def bookTicket (ticketData : Option Params) (http : Option Params → HttpOutcome) :
    AdapterEnvelope :=
  match ticketData with
  | none => .failed "Cannot read properties of undefined (reading \x27flightNumber\x27)"
  | some p =>
    match http (some p) with
    | .ok s d => .success d s
    | .httpError s d errs =>
        .apiError s d
          (match errs with
           | some e => e
           | none => "Failed to book ticket. Please try again with valid flight details.")
    | .netError m => .failed m

/-- adapters.js ApiAdapters.checkIn: like bookTicket but reads the input
fields with optional chaining, so even a missing object reaches the POST;
every failure is caught and returned as an envelope (never rethrown). -/
def checkIn (checkInData : Option Params) (http : Option Params → HttpOutcome) :
    AdapterEnvelope :=
  match http checkInData with
  | .ok s d => .success d s
  | .httpError s d errs =>
      .apiError s d
        (match errs with
         | some e => e
         | none => "Failed to check in. Please verify your flight details and try again.")
  | .netError m => .failed m

/-- One aiService.generateResponse call site in the message handler, with
the dynamic data flowing into its prompt.  The prompt template text is
data handed to the external model and is elided; generateResponse catches
every error internally and returns a string, so it is a total oracle. -/
inductive GenCall where
  | querySearch (params : Option Params) (flights : String) (userMsg : String)
  | querySearchFailed (errMsg : String) (userMsg : String)
  | buyTicket (params : Option Params) (result : AdapterEnvelope) (userMsg : String)
  | checkInSingle (params : Option Params) (result : AdapterEnvelope) (userMsg : String)
  | startQuery (collected : Params) (userMsg : String)
  | startBuy (collected : Params) (userMsg : String)
  | startCheckin (collected : Params) (userMsg : String)
  | flowQueryComplete (collected : Params) (flights : String) (userMsg : String)
  | flowQueryFailed (collected : Params) (errMsg : String) (userMsg : String)
  | flowBuyComplete (collected : Params) (result : AdapterEnvelope) (userMsg : String)
  | flowCheckinComplete (collected : Params) (result : AdapterEnvelope) (userMsg : String)
  | continueStep (flow : Option String) (step : Option Nat) (collected : Params)
      (intent : Intent) (userMsg : String)

/-- The external world the message handler talks to: the three HTTP
endpoints behind the adapters and the response-generating model. -/
structure Env where
  httpSearch : Option Params → HttpOutcome
  httpBook : Option Params → HttpOutcome
  httpCheckIn : Option Params → HttpOutcome
  gen : GenCall → String

/-- One Action Adapter invocation made by the gateway: which adapter
(named by the switch case that calls it) and the JS argument passed. -/
structure Dispatch where
  kind : String
  params : Option Params
deriving DecidableEq

/-- What one run of the message handler produces: the mutated session,
the adapter calls it made (in order), and the assistant response text. -/
structure HandleResult where
  session : Session
  dispatches : List Dispatch
  response : String
deriving DecidableEq

/-- The literal fallback of the shared CHAT/default case
(index.js line 472). -/
def chatFallback : String :=
  "I\x27m not sure I understand. Could you please rephrase your request?"

/-- The socket.on message handler of index.js (lines 100-510), switch on
intent.action.  responseContent starts as the empty string; the CHAT case
and the default case share one body.  generateResponse never throws, so
the catches that only guard it are dead and each response is the gen
oracle output of its call site. -/
def handleMessage (env : Env) (session : Session) (userMsg : String) (intent : Intent) :
    HandleResult :=
  if intent.action = "QUERY_FLIGHT" then
    match searchFlights intent.parameters env.httpSearch with
    | .ok flights =>
        { session := session, dispatches := [⟨"QUERY_FLIGHT", intent.parameters⟩],
          response := env.gen (.querySearch intent.parameters flights userMsg) }
    | .error e =>
        { session := session, dispatches := [⟨"QUERY_FLIGHT", intent.parameters⟩],
          response := env.gen (.querySearchFailed e userMsg) }
  else if intent.action = "BUY_TICKET" then
    { session := session, dispatches := [⟨"BUY_TICKET", intent.parameters⟩],
      response := env.gen (.buyTicket intent.parameters
        (bookTicket intent.parameters env.httpBook) userMsg) }
  else if intent.action = "CHECK_IN" then
    { session := session, dispatches := [⟨"CHECK_IN", intent.parameters⟩],
      response := env.gen (.checkInSingle intent.parameters
        (checkIn intent.parameters env.httpCheckIn) userMsg) }
  else if intent.action = "START_QUERY_FLOW" then
    let s1 : Session :=
      { session with activeFlow := some "QUERY_FLIGHT", currentStep := some 1,
                     collectedParams := intent.parameters.getD [] }
    { session := s1, dispatches := [],
      response := env.gen (.startQuery s1.collectedParams userMsg) }
  else if intent.action = "START_BUY_FLOW" then
    let s1 : Session :=
      { session with activeFlow := some "BUY_TICKET", currentStep := some 1,
                     collectedParams := intent.parameters.getD [] }
    { session := s1, dispatches := [],
      response := env.gen (.startBuy s1.collectedParams userMsg) }
  else if intent.action = "START_CHECKIN_FLOW" then
    let s1 : Session :=
      { session with activeFlow := some "CHECK_IN", currentStep := some 1,
                     collectedParams := intent.parameters.getD [] }
    { session := s1, dispatches := [],
      response := env.gen (.startCheckin s1.collectedParams userMsg) }
  else if intent.action = "CONTINUE_FLOW" then
    let s1 : Session :=
      { session with activeFlow := intent.flow, currentStep := intent.nextStep,
                     collectedParams := intent.collectedParams.getD [] }
    if intent.isFlowComplete then
      if intent.flow = some "QUERY_FLIGHT" then
        match searchFlights (some s1.collectedParams) env.httpSearch with
        | .ok flights =>
            { session := { s1 with activeFlow := none, currentStep := none },
              dispatches := [⟨"QUERY_FLIGHT", some s1.collectedParams⟩],
              response := env.gen (.flowQueryComplete s1.collectedParams flights userMsg) }
        | .error e =>
            { session := s1,
              dispatches := [⟨"QUERY_FLIGHT", some s1.collectedParams⟩],
              response := env.gen (.flowQueryFailed s1.collectedParams e userMsg) }
      else if intent.flow = some "BUY_TICKET" then
        { session := { s1 with activeFlow := none, currentStep := none },
          dispatches := [⟨"BUY_TICKET", some s1.collectedParams⟩],
          response := env.gen (.flowBuyComplete s1.collectedParams
            (bookTicket (some s1.collectedParams) env.httpBook) userMsg) }
      else if intent.flow = some "CHECK_IN" then
        { session := { s1 with activeFlow := none, currentStep := none },
          dispatches := [⟨"CHECK_IN", some s1.collectedParams⟩],
          response := env.gen (.flowCheckinComplete s1.collectedParams
            (checkIn (some s1.collectedParams) env.httpCheckIn) userMsg) }
      else
        { session := s1, dispatches := [], response := "" }
    else
      { session := s1, dispatches := [],
        response := env.gen (.continueStep s1.activeFlow s1.currentStep
          s1.collectedParams intent userMsg) }
  else
    { session := session, dispatches := [],
      response := intent.response.getD chatFallback }

/-- Feeding a sequence of user turns (message text and classified intent)
through the handler, threading the session and collecting the adapter
calls in order. -/
def runSeq (env : Env) (s : Session) : List (String × Intent) → Session × List Dispatch
  | [] => (s, [])
  | (m, i) :: rest =>
      let r := handleMessage env s m i
      let t := runSeq env r.session rest
      (t.1, r.dispatches ++ t.2)

/-- The session invariant of the spec: activeFlow is NONE exactly when
currentStep is null. -/
def Session.flowInvariant (s : Session) : Prop :=
  s.activeFlow = none ↔ s.currentStep = none

instance (s : Session) : Decidable s.flowInvariant := by
  unfold Session.flowInvariant; infer_instance

/-- An environment where every HTTP call succeeds and the model oracle
returns the empty string. -/
def envOk : Env :=
  { httpSearch := fun _ => .ok 200 "[]",
    httpBook := fun _ => .ok 200 "{}",
    httpCheckIn := fun _ => .ok 200 "{}",
    gen := fun _ => "" }

/-- An environment where the flight-search endpoint fails at the network
level and the other calls succeed. -/
def envSearchDown : Env :=
  { httpSearch := fun _ => .netError "timeout of 150000ms exceeded",
    httpBook := fun _ => .ok 200 "{}",
    httpCheckIn := fun _ => .ok 200 "{}",
    gen := fun _ => "" }

/-- Well-formedness of the classifier-supplied CONTINUE_FLOW fields:
flow and nextStep are supplied together (both present or both absent). -/
def Intent.contFlowConsistent (i : Intent) : Prop :=
  i.action = "CONTINUE_FLOW" → (i.flow = none ↔ i.nextStep = none)

instance (i : Intent) : Decidable i.contFlowConsistent := by
  unfold Intent.contFlowConsistent; infer_instance

/-- A flow-building turn: a START_* intent or a CONTINUE_FLOW intent that
does not complete the flow.  None of these dispatch to an adapter. -/
def Intent.isFlowStep (i : Intent) : Prop :=
  i.action = "START_QUERY_FLOW" ∨ i.action = "START_BUY_FLOW" ∨
    i.action = "START_CHECKIN_FLOW" ∨
    (i.action = "CONTINUE_FLOW" ∧ i.isFlowComplete = false)

/-- The at-most-one-adapter-call guarantee, per message-handler run. -/
def atMostOneDispatchPerTransition : Prop :=
  ∀ (env : Env) (s : Session) (m : String) (i : Intent),
    (handleMessage env s m i).dispatches.length ≤ 1

/-- Outcome of one aiService.detectIntent attempt, as observed at its
try/catch boundaries: the OpenAI client was never created, the API call
threw, the model content failed JSON.parse, or it parsed to an intent. -/
inductive ClassifierOutcome where
  | noClient
  | requestError (msg : String)
  | parseFailure (raw : String)
  | parsed (i : Intent)

/-- Whether the classifier attempt failed (anything but a parsed intent). -/
def ClassifierOutcome.failed : ClassifierOutcome → Bool
  | .parsed _ => false
  | _ => true

/-- The apology string returned by the detectIntent catch block
(aiService.js lines 346-349). -/
def classifierApology : String :=
  "I\x27m sorry, I\x27m having trouble understanding right now. Could you try again or rephrase your request?"

/-- The CHAT fallback intent built in the detectIntent catch block. -/
def classifierFallback : Intent :=
  { action := "CHAT", response := some classifierApology }

/-- aiService.processFlowStep: passes the AI flow decision through. -/
def processFlowStep (response : Intent) (_conversationState : Session) : Intent :=
  response

/-- aiService.detectIntent: on a parsed model response, routes an active
flow CONTINUE_FLOW through processFlowStep (the identity) and returns the
parsed intent; every failure is caught and becomes the CHAT apology
intent — detectIntent never throws to its caller. -/
def detectIntent (o : ClassifierOutcome) (conversationState : Session) : Intent :=
  match o with
  | .parsed i =>
      if conversationState.activeFlow.isSome ∧ i.action = "CONTINUE_FLOW" then
        processFlowStep i conversationState
      else i
  | _ => classifierFallback

/-- A chat message as stored in Cosmos DB and in the in-memory history.
Timestamps are ISO strings ordered lexicographically, modelled as Nat. -/
structure Msg where
  id : String
  content : String
  timestamp : Nat
  sender : String
  userId : String
deriving DecidableEq

/-- cosmosDbService.getConversationHistory over an initialized container,
with the store modelled as the list of saved items: select the messages
of the user, order by timestamp descending, keep the first limit items,
then reverse into chronological order. -/
def getConversationHistory (store : List Msg) (userId : String) (limit : Nat) : List Msg :=
  ((((store.filter (fun m => m.userId == userId)).mergeSort
      (fun a b => Nat.ble b.timestamp a.timestamp)).take limit)).reverse

/-- The in-memory history of a session that hydrated from the store on
identify and then appended each exchanged message (index.js lines 70-89,
112, 487), every message also being saved. -/
def sessionFinalHistory (store : List Msg) (userId : String) (limit : Nat)
    (ms : List Msg) : List Msg :=
  getConversationHistory store userId limit ++ ms

/-- The store contents after that session saved each appended message. -/
def storeAfter (store : List Msg) (ms : List Msg) : List Msg :=
  store ++ ms

/-- The completing QUERY_FLIGHT continuation used as concrete input. -/
def qfCompleteIntent : Intent :=
  { action := "CONTINUE_FLOW", flow := some "QUERY_FLIGHT", nextStep := some 3,
    collectedParams := some [("origin", "JFK"), ("destination", "LAX")],
    isFlowComplete := true }

/-- The completing BUY_TICKET continuation used as concrete input. -/
def buyCompleteIntent : Intent :=
  { action := "CONTINUE_FLOW", flow := some "BUY_TICKET", nextStep := some 3,
    collectedParams := some [("flightNumber", "FL3940"), ("flightDate", "2024-05-01")],
    isFlowComplete := true }

example :
    (handleMessage envOk Session.init "book FL3940"
      { action := "START_BUY_FLOW", parameters := some [("flightNumber", "FL3940")] }).session
      = ⟨some "BUY_TICKET", some 1, [("flightNumber", "FL3940")]⟩ := by decide

example :
    (handleMessage envOk ⟨some "BUY_TICKET", some 1, [("flightNumber", "FL3940")]⟩ "tomorrow"
      { action := "CONTINUE_FLOW", flow := some "BUY_TICKET", nextStep := some 2,
        collectedParams := some [("flightNumber", "FL3940"), ("flightDate", "2024-05-01")],
        isFlowComplete := true }).dispatches
      = [⟨"BUY_TICKET", some [("flightNumber", "FL3940"), ("flightDate", "2024-05-01")]⟩] := by
  decide

example :
    (handleMessage envSearchDown Session.init ""
      { action := "CONTINUE_FLOW", flow := some "QUERY_FLIGHT", nextStep := some 3,
        collectedParams := some [("origin", "JFK")], isFlowComplete := true }).session.activeFlow
      = some "QUERY_FLIGHT" := by decide

/-- The eight action values the gateway switch recognizes (the CHAT case
shares its body with the default case). -/
def recognizedAction (a : String) : Prop :=
  a = "CHAT" ∨ a = "QUERY_FLIGHT" ∨ a = "BUY_TICKET" ∨ a = "CHECK_IN" ∨
    a = "START_QUERY_FLOW" ∨ a = "START_BUY_FLOW" ∨ a = "START_CHECKIN_FLOW" ∨
    a = "CONTINUE_FLOW"

/-- C5: a CONTINUE_FLOW intent that does not complete the flow sets
activeFlow, currentStep and collectedParams wholesale from the intent
(collectedParams defaulting to the empty object), without merging into
the previous session values, and makes no adapter call. -/
theorem continueFlow_incomplete_replaces (env : Env) (s : Session) (m : String) (i : Intent)
    (hact : i.action = "CONTINUE_FLOW") (hc : i.isFlowComplete = false) :
    (handleMessage env s m i).session
        = ⟨i.flow, i.nextStep, i.collectedParams.getD []⟩
      ∧ (handleMessage env s m i).dispatches = [] := by
  obtain ⟨a, p, r, fl, n, c, comp⟩ := i
  simp only at hact hc
  subst hact; subst hc
  exact ⟨rfl, rfl⟩

/-- Witness for C5 at a concrete incomplete continuation. -/
theorem continueFlow_incomplete_replaces_witness :
    (handleMessage envOk ⟨some "BUY_TICKET", some 1, [("x", "y")]⟩ "msg"
        { action := "CONTINUE_FLOW", flow := some "BUY_TICKET", nextStep := some 2,
          collectedParams := some [("flightNumber", "FL3940")], isFlowComplete := false }).session
      = ⟨some "BUY_TICKET", some 2, [("flightNumber", "FL3940")]⟩
    ∧ (handleMessage envOk ⟨some "BUY_TICKET", some 1, [("x", "y")]⟩ "msg"
        { action := "CONTINUE_FLOW", flow := some "BUY_TICKET", nextStep := some 2,
          collectedParams := some [("flightNumber", "FL3940")], isFlowComplete := false }).dispatches
      = [] :=
  continueFlow_incomplete_replaces envOk ⟨some "BUY_TICKET", some 1, [("x", "y")]⟩ "msg"
    _ rfl rfl

/-- C6: each START_* intent sets the matching flow kind, step 1 and the
intent parameters (defaulting to the empty object), and makes no adapter
call. -/
theorem startFlow_sets_state (env : Env) (s : Session) (m : String) (i : Intent) :
    (i.action = "START_QUERY_FLOW" →
        (handleMessage env s m i).session = ⟨some "QUERY_FLIGHT", some 1, i.parameters.getD []⟩
        ∧ (handleMessage env s m i).dispatches = [])
    ∧ (i.action = "START_BUY_FLOW" →
        (handleMessage env s m i).session = ⟨some "BUY_TICKET", some 1, i.parameters.getD []⟩
        ∧ (handleMessage env s m i).dispatches = [])
    ∧ (i.action = "START_CHECKIN_FLOW" →
        (handleMessage env s m i).session = ⟨some "CHECK_IN", some 1, i.parameters.getD []⟩
        ∧ (handleMessage env s m i).dispatches = []) := by
  obtain ⟨a, p, r, fl, n, c, comp⟩ := i
  refine ⟨fun h => ?_, fun h => ?_, fun h => ?_⟩ <;>
    (simp only at h; subst h; exact ⟨rfl, rfl⟩)

/-- Witness for C6 at the Scenario B start intent. -/
theorem startFlow_sets_state_witness :
    (handleMessage envOk Session.init "I want to book FL3940"
        { action := "START_BUY_FLOW", parameters := some [("flightNumber", "FL3940")] }).session
      = ⟨some "BUY_TICKET", some 1, [("flightNumber", "FL3940")]⟩
    ∧ (handleMessage envOk Session.init "I want to book FL3940"
        { action := "START_BUY_FLOW", parameters := some [("flightNumber", "FL3940")] }).dispatches
      = [] :=
  (startFlow_sets_state envOk Session.init "I want to book FL3940" _).2.1 rfl

/-- C10: a completing CONTINUE_FLOW whose flow is not one of the three
recognized kinds falls through the inner switch: no adapter call, the
response stays the empty string, and the session keeps
activeFlow = intent.flow and currentStep = intent.nextStep (no reset). -/
theorem continueFlow_complete_unrecognized (env : Env) (s : Session) (m : String) (i : Intent)
    (hact : i.action = "CONTINUE_FLOW") (hc : i.isFlowComplete = true)
    (h1 : i.flow ≠ some "QUERY_FLIGHT") (h2 : i.flow ≠ some "BUY_TICKET")
    (h3 : i.flow ≠ some "CHECK_IN") :
    (handleMessage env s m i).dispatches = []
    ∧ (handleMessage env s m i).response = ""
    ∧ (handleMessage env s m i).session = ⟨i.flow, i.nextStep, i.collectedParams.getD []⟩ := by
  obtain ⟨a, p, r, fl, n, c, comp⟩ := i
  simp only at hact hc h1 h2 h3
  subst hact; subst hc
  simp [handleMessage, h1, h2, h3]

/-- Witness for C10 at a concrete unrecognized flow value. -/
theorem continueFlow_complete_unrecognized_witness :
    (handleMessage envOk Session.init "done"
        { action := "CONTINUE_FLOW", flow := some "BOOK_HOTEL", nextStep := some 4,
          collectedParams := some [("city", "Paris")], isFlowComplete := true }).dispatches = []
    ∧ (handleMessage envOk Session.init "done"
        { action := "CONTINUE_FLOW", flow := some "BOOK_HOTEL", nextStep := some 4,
          collectedParams := some [("city", "Paris")], isFlowComplete := true }).response = ""
    ∧ (handleMessage envOk Session.init "done"
        { action := "CONTINUE_FLOW", flow := some "BOOK_HOTEL", nextStep := some 4,
          collectedParams := some [("city", "Paris")], isFlowComplete := true }).session
      = ⟨some "BOOK_HOTEL", some 4, [("city", "Paris")]⟩ :=
  continueFlow_complete_unrecognized envOk Session.init "done" _ rfl rfl
    (by decide) (by decide) (by decide)

/-- C7: an intent whose action is not one of the eight recognized values
runs the same branch as CHAT: identical result, session unchanged, no
adapter call, and the response is intent.response or the generic
fallback. -/
theorem unrecognizedAction_behaves_as_chat (env : Env) (s : Session) (m : String) (i : Intent)
    (h : ¬ recognizedAction i.action) :
    handleMessage env s m i = handleMessage env s m { i with action := "CHAT" }
    ∧ (handleMessage env s m i).session = s
    ∧ (handleMessage env s m i).dispatches = []
    ∧ (handleMessage env s m i).response = i.response.getD chatFallback := by
  unfold recognizedAction at h
  push_neg at h
  obtain ⟨h1, h2, h3, h4, h5, h6, h7, h8⟩ := h
  refine ⟨?_, ?_, ?_, ?_⟩ <;>
    simp [handleMessage, h2, h3, h4, h5, h6, h7, h8]

/-- Witness for C7 at a concrete unrecognized action value. -/
theorem unrecognizedAction_behaves_as_chat_witness :
    handleMessage envOk ⟨some "CHECK_IN", some 2, []⟩ "hi"
        { action := "CANCEL_TICKET", response := some "ok" }
      = handleMessage envOk ⟨some "CHECK_IN", some 2, []⟩ "hi"
        { action := "CHAT", response := some "ok" }
    ∧ (handleMessage envOk ⟨some "CHECK_IN", some 2, []⟩ "hi"
        { action := "CANCEL_TICKET", response := some "ok" }).session
      = ⟨some "CHECK_IN", some 2, []⟩
    ∧ (handleMessage envOk ⟨some "CHECK_IN", some 2, []⟩ "hi"
        { action := "CANCEL_TICKET", response := some "ok" }).dispatches = []
    ∧ (handleMessage envOk ⟨some "CHECK_IN", some 2, []⟩ "hi"
        { action := "CANCEL_TICKET", response := some "ok" }).response
      = (Option.some "ok").getD chatFallback :=
  unrecognizedAction_behaves_as_chat envOk ⟨some "CHECK_IN", some 2, []⟩ "hi"
    { action := "CANCEL_TICKET", response := some "ok" } (by
      unfold recognizedAction
      push_neg
      refine ⟨?_, ?_, ?_, ?_, ?_, ?_, ?_, ?_⟩ <;> decide)

/-- Helper: flow-building turns make no adapter call. -/
theorem handleMessage_dispatches_nil_of_flowStep (env : Env) (s : Session) (m : String)
    (i : Intent) (h : i.isFlowStep) :
    (handleMessage env s m i).dispatches = [] := by
  obtain ⟨a, p, r, fl, n, c, comp⟩ := i
  unfold Intent.isFlowStep at h
  simp only at h
  rcases h with h | h | h | ⟨h, h2⟩ <;> subst h <;> try subst h2
  all_goals simp [handleMessage]

/-- Helper: a completing continuation with a recognized flow makes
exactly the one adapter call carrying the intent collectedParams. -/
theorem handleMessage_completion_dispatch (env : Env) (s : Session) (m : String)
    (i : Intent) (k : String) (hact : i.action = "CONTINUE_FLOW")
    (hc : i.isFlowComplete = true) (hk : i.flow = some k)
    (hrec : k = "QUERY_FLIGHT" ∨ k = "BUY_TICKET" ∨ k = "CHECK_IN") :
    (handleMessage env s m i).dispatches = [⟨k, some (i.collectedParams.getD [])⟩] := by
  obtain ⟨a, p, r, fl, n, c, comp⟩ := i
  simp only at hact hc hk
  subst hact; subst hc; subst hk
  rcases hrec with h | h | h <;> subst h
  · cases hsf : searchFlights (some (c.getD [])) env.httpSearch <;>
      simp [handleMessage, hsf]
  · simp [handleMessage]
  · simp [handleMessage]

/-- Helper: no single message-handler run makes more than one adapter
call. -/
theorem handleMessage_dispatch_le_one : atMostOneDispatchPerTransition := by
  intro env s m i
  obtain ⟨a, p, r, fl, n, c, comp⟩ := i
  by_cases h1 : a = "QUERY_FLIGHT"
  · subst h1
    cases hsf : searchFlights p env.httpSearch <;> simp [handleMessage, hsf]
  by_cases h2 : a = "BUY_TICKET"
  · subst h2; simp [handleMessage]
  by_cases h3 : a = "CHECK_IN"
  · subst h3; simp [handleMessage]
  by_cases h4 : a = "START_QUERY_FLOW"
  · subst h4; simp [handleMessage]
  by_cases h5 : a = "START_BUY_FLOW"
  · subst h5; simp [handleMessage]
  by_cases h6 : a = "START_CHECKIN_FLOW"
  · subst h6; simp [handleMessage]
  by_cases h7 : a = "CONTINUE_FLOW"
  · subst h7
    cases comp
    · simp [handleMessage]
    · by_cases hf1 : fl = some "QUERY_FLIGHT"
      · cases hsf : searchFlights (some (c.getD [])) env.httpSearch <;>
          simp [handleMessage, hf1, hsf]
      · by_cases hf2 : fl = some "BUY_TICKET"
        · simp [handleMessage, hf1, hf2]
        · by_cases hf3 : fl = some "CHECK_IN"
          · simp [handleMessage, hf1, hf2, hf3]
          · simp [handleMessage, hf1, hf2, hf3]
  · simp [handleMessage, h1, h2, h3, h4, h5, h6, h7]

/-- C1 counterexample: from the fresh session (which satisfies the
invariant), a CONTINUE_FLOW intent carrying a flow but no nextStep (both
fields come unvalidated from the classifier) drives the session to
activeFlow set with currentStep null. -/
theorem flowInvariant_broken_on_inconsistent_continue :
    Session.init.flowInvariant
    ∧ ¬ (handleMessage envOk Session.init "next"
          { action := "CONTINUE_FLOW", flow := some "BUY_TICKET", nextStep := none,
            isFlowComplete := false }).session.flowInvariant := by
  decide

/-- C1 amended: every message-handler run preserves the invariant
activeFlow = NONE iff currentStep = null, provided any CONTINUE_FLOW
intent carries its flow and nextStep fields together (both present or
both absent). -/
theorem flowInvariant_preserved_of_consistent (env : Env) (s : Session) (m : String)
    (i : Intent) (hs : s.flowInvariant) (hi : i.contFlowConsistent) :
    (handleMessage env s m i).session.flowInvariant := by
  obtain ⟨a, p, r, fl, n, c, comp⟩ := i
  unfold Session.flowInvariant Intent.contFlowConsistent at *
  simp only at hi
  by_cases h1 : a = "QUERY_FLIGHT"
  · subst h1
    cases hsf : searchFlights p env.httpSearch <;> simpa [handleMessage, hsf] using hs
  by_cases h2 : a = "BUY_TICKET"
  · subst h2; simpa [handleMessage] using hs
  by_cases h3 : a = "CHECK_IN"
  · subst h3; simpa [handleMessage] using hs
  by_cases h4 : a = "START_QUERY_FLOW"
  · subst h4; simp [handleMessage]
  by_cases h5 : a = "START_BUY_FLOW"
  · subst h5; simp [handleMessage]
  by_cases h6 : a = "START_CHECKIN_FLOW"
  · subst h6; simp [handleMessage]
  by_cases h7 : a = "CONTINUE_FLOW"
  · subst h7
    have h9 := hi rfl
    cases comp
    · simpa [handleMessage] using h9
    · by_cases hf1 : fl = some "QUERY_FLIGHT"
      · rw [hf1] at h9
        simp only [reduceCtorEq, false_iff] at h9
        cases hsf : searchFlights (some (c.getD [])) env.httpSearch <;>
          simp [handleMessage, hf1, hsf, h9]
      · by_cases hf2 : fl = some "BUY_TICKET"
        · simp [handleMessage, hf1, hf2]
        · by_cases hf3 : fl = some "CHECK_IN"
          · simp [handleMessage, hf1, hf2, hf3]
          · simpa [handleMessage, hf1, hf2, hf3] using h9
  · simpa [handleMessage, h1, h2, h3, h4, h5, h6, h7] using hs

/-- Witness for the amended C1 at a concrete consistent continuation. -/
theorem flowInvariant_preserved_of_consistent_witness :
    (handleMessage envOk Session.init "to LAX"
        { action := "CONTINUE_FLOW", flow := some "QUERY_FLIGHT", nextStep := some 2,
          collectedParams := some [("origin", "JFK")],
          isFlowComplete := false }).session.flowInvariant :=
  flowInvariant_preserved_of_consistent envOk Session.init "to LAX" _
    (by decide) (by decide)

/-- C2: a sequence of flow-building turns ending in a completing
CONTINUE_FLOW with a recognized flow produces exactly one adapter call
over the whole sequence, carrying the final intent collectedParams; and
no single handler run ever makes more than one adapter call. -/
theorem exactlyOnce_dispatch (env : Env) (s : Session) (steps : List (String × Intent))
    (m : String) (f : Intent) (k : String)
    (hsteps : ∀ p ∈ steps, Intent.isFlowStep p.2)
    (hact : f.action = "CONTINUE_FLOW") (hc : f.isFlowComplete = true)
    (hk : f.flow = some k)
    (hrec : k = "QUERY_FLIGHT" ∨ k = "BUY_TICKET" ∨ k = "CHECK_IN") :
    (runSeq env s (steps ++ [(m, f)])).2 = [⟨k, some (f.collectedParams.getD [])⟩]
    ∧ atMostOneDispatchPerTransition := by
  refine ⟨?_, handleMessage_dispatch_le_one⟩
  induction steps generalizing s with
  | nil =>
      simp [runSeq, handleMessage_completion_dispatch env s m f k hact hc hk hrec]
  | cons q rest ih =>
      have h0 : (handleMessage env s q.1 q.2).dispatches = [] :=
        handleMessage_dispatches_nil_of_flowStep _ _ _ _ (hsteps _ (by simp))
      obtain ⟨mq, iq⟩ := q
      simpa [runSeq, h0] using ih _ (fun r hr => hsteps r (by simp [hr]))

/-- Witness for C2 on the Scenario B sequence. -/
theorem exactlyOnce_dispatch_witness :
    (runSeq envOk Session.init
        [("I want to book FL3940",
          { action := "START_BUY_FLOW", parameters := some [("flightNumber", "FL3940")] }),
         ("2024-05-01, John Doe", buyCompleteIntent)]).2
      = [⟨"BUY_TICKET", some [("flightNumber", "FL3940"), ("flightDate", "2024-05-01")]⟩]
    ∧ atMostOneDispatchPerTransition :=
  exactlyOnce_dispatch envOk Session.init
    [("I want to book FL3940",
      { action := "START_BUY_FLOW", parameters := some [("flightNumber", "FL3940")] })]
    "2024-05-01, John Doe" buyCompleteIntent "BUY_TICKET"
    (by intro p hp; simp only [List.mem_singleton] at hp; subst hp; exact Or.inr (Or.inl rfl))
    rfl rfl rfl (Or.inr (Or.inl rfl))

/-- C3 counterexample: a completing QUERY_FLIGHT continuation whose
search call fails at the network level does dispatch to the adapter, yet
the session is NOT reset: the reset sits inside the try block and the
catch path skips it. -/
theorem completionReset_fails_on_search_error :
    (handleMessage envSearchDown Session.init "2 passengers" qfCompleteIntent).dispatches
      = [⟨"QUERY_FLIGHT", some [("origin", "JFK"), ("destination", "LAX")]⟩]
    ∧ (handleMessage envSearchDown Session.init "2 passengers"
        qfCompleteIntent).session.activeFlow ≠ none
    ∧ (handleMessage envSearchDown Session.init "2 passengers"
        qfCompleteIntent).session.activeFlow = some "QUERY_FLIGHT"
    ∧ (handleMessage envSearchDown Session.init "2 passengers"
        qfCompleteIntent).session.currentStep = some 3 := by
  decide

/-- C3 amended: after a completion dispatch the flow state resets to
NONE for BUY_TICKET and CHECK_IN regardless of the adapter outcome
(those adapters return error envelopes instead of throwing), and for
QUERY_FLIGHT exactly when the search adapter returns instead of
throwing; on a thrown search error the session keeps
activeFlow = QUERY_FLIGHT and currentStep = intent.nextStep. -/
theorem completionReset_amended (env : Env) (s : Session) (m : String) (i : Intent)
    (hact : i.action = "CONTINUE_FLOW") (hc : i.isFlowComplete = true) :
    ((i.flow = some "BUY_TICKET" ∨ i.flow = some "CHECK_IN") →
       (handleMessage env s m i).session.activeFlow = none
       ∧ (handleMessage env s m i).session.currentStep = none)
    ∧ (i.flow = some "QUERY_FLIGHT" →
        (∀ d, searchFlights (some (i.collectedParams.getD [])) env.httpSearch = .ok d →
           (handleMessage env s m i).session.activeFlow = none
           ∧ (handleMessage env s m i).session.currentStep = none)
        ∧ (∀ e, searchFlights (some (i.collectedParams.getD [])) env.httpSearch = .error e →
           (handleMessage env s m i).session.activeFlow = some "QUERY_FLIGHT"
           ∧ (handleMessage env s m i).session.currentStep = i.nextStep)) := by
  obtain ⟨a, p, r, fl, n, c, comp⟩ := i
  simp only at hact hc
  subst hact; subst hc
  constructor
  · rintro (h | h) <;> (simp only at h; subst h; simp [handleMessage])
  · intro h
    simp only at h
    subst h
    constructor
    · intro d hd
      simp [handleMessage, hd]
    · intro e he
      simp [handleMessage, he]

/-- Witness for the amended C3: a successful search completion resets
the flow, and failed buy/check-in HTTP calls still reset the flow. -/
theorem completionReset_amended_witness :
    ((handleMessage envOk Session.init "2 passengers" qfCompleteIntent).session.activeFlow = none
       ∧ (handleMessage envOk Session.init "2 passengers"
            qfCompleteIntent).session.currentStep = none)
    ∧ ((handleMessage envSearchDown Session.init "go" buyCompleteIntent).session.activeFlow = none
       ∧ (handleMessage envSearchDown Session.init "go"
            buyCompleteIntent).session.currentStep = none) :=
  ⟨((completionReset_amended envOk Session.init "2 passengers" qfCompleteIntent
        rfl rfl).2 rfl).1 "[]" rfl,
   (completionReset_amended envSearchDown Session.init "go" buyCompleteIntent
        rfl rfl).1 (Or.inl rfl)⟩

/-- C4 counterexample: completing a BUY_TICKET flow hands the collected
parameters to the adapter but does NOT clear them: the reset (index.js
lines 382-384) only nulls activeFlow and currentStep, so collectedParams
still holds the completed-flow parameters afterwards. -/
theorem collectedParams_not_cleared_on_completion :
    (handleMessage envOk ⟨some "BUY_TICKET", some 2, [("flightNumber", "FL3940")]⟩
        "John Doe" buyCompleteIntent).dispatches
      = [⟨"BUY_TICKET", some [("flightNumber", "FL3940"), ("flightDate", "2024-05-01")]⟩]
    ∧ (handleMessage envOk ⟨some "BUY_TICKET", some 2, [("flightNumber", "FL3940")]⟩
        "John Doe" buyCompleteIntent).session.activeFlow = none
    ∧ (handleMessage envOk ⟨some "BUY_TICKET", some 2, [("flightNumber", "FL3940")]⟩
        "John Doe" buyCompleteIntent).session.collectedParams ≠ []
    ∧ (handleMessage envOk ⟨some "BUY_TICKET", some 2, [("flightNumber", "FL3940")]⟩
        "John Doe" buyCompleteIntent).session.collectedParams
      = [("flightNumber", "FL3940"), ("flightDate", "2024-05-01")] := by
  decide

/-- C4 amended: on completion the dispatch carries exactly the intent
collectedParams, which the session retains (they are not cleared); still
no parameter ever leaks between flows implicitly, because every
CONTINUE_FLOW replaces collectedParams with the intent value and every
START_* replaces them with the intent parameters, independently of the
previous session contents. -/
theorem collectedParams_retained_and_replaced (env : Env) (s : Session) (m : String)
    (i : Intent) :
    (i.action = "CONTINUE_FLOW" →
       (handleMessage env s m i).session.collectedParams = i.collectedParams.getD [])
    ∧ ((i.action = "START_QUERY_FLOW" ∨ i.action = "START_BUY_FLOW" ∨
          i.action = "START_CHECKIN_FLOW") →
       (handleMessage env s m i).session.collectedParams = i.parameters.getD [])
    ∧ (∀ k, i.action = "CONTINUE_FLOW" → i.isFlowComplete = true → i.flow = some k →
        (k = "QUERY_FLIGHT" ∨ k = "BUY_TICKET" ∨ k = "CHECK_IN") →
        (handleMessage env s m i).dispatches = [⟨k, some (i.collectedParams.getD [])⟩]) := by
  refine ⟨?_, ?_, fun k hact hc hk hrec =>
    handleMessage_completion_dispatch env s m i k hact hc hk hrec⟩
  · intro hact
    obtain ⟨a, p, r, fl, n, c, comp⟩ := i
    simp only at hact
    subst hact
    cases comp
    · simp [handleMessage]
    · by_cases hf1 : fl = some "QUERY_FLIGHT"
      · cases hsf : searchFlights (some (c.getD [])) env.httpSearch <;>
          simp [handleMessage, hf1, hsf]
      · by_cases hf2 : fl = some "BUY_TICKET"
        · simp [handleMessage, hf1, hf2]
        · by_cases hf3 : fl = some "CHECK_IN"
          · simp [handleMessage, hf1, hf2, hf3]
          · simp [handleMessage, hf1, hf2, hf3]
  · rintro (h | h | h) <;>
      (obtain ⟨a, p, r, fl, n, c, comp⟩ := i; simp only at h; subst h; simp [handleMessage])

/-- Witness for the amended C4 at a concrete completion. -/
theorem collectedParams_retained_and_replaced_witness :
    (handleMessage envOk ⟨some "BUY_TICKET", some 2, [("x", "y")]⟩ "go"
        buyCompleteIntent).session.collectedParams
      = (buyCompleteIntent.collectedParams).getD []
    ∧ (handleMessage envOk ⟨some "BUY_TICKET", some 2, [("x", "y")]⟩ "go"
        buyCompleteIntent).dispatches
      = [⟨"BUY_TICKET", some ((buyCompleteIntent.collectedParams).getD [])⟩] :=
  ⟨(collectedParams_retained_and_replaced envOk ⟨some "BUY_TICKET", some 2, [("x", "y")]⟩
      "go" buyCompleteIntent).1 rfl,
   (collectedParams_retained_and_replaced envOk ⟨some "BUY_TICKET", some 2, [("x", "y")]⟩
      "go" buyCompleteIntent).2.2 "BUY_TICKET" rfl rfl rfl (Or.inr (Or.inl rfl))⟩

/-- C8: every classifier failure (missing client, request error,
unparseable model output) is recovered locally: detectIntent returns the
CHAT apology intent, and running the message handler on it leaves the
session unchanged, calls no adapter, and emits the apology as a normal
assistant turn — nothing is propagated to the transport. -/
theorem classifierFailure_degrades_to_chat (o : ClassifierOutcome) (cs : Session)
    (h : o.failed = true) (env : Env) (s : Session) (m : String) :
    detectIntent o cs = classifierFallback
    ∧ (handleMessage env s m (detectIntent o cs)).session = s
    ∧ (handleMessage env s m (detectIntent o cs)).dispatches = []
    ∧ (handleMessage env s m (detectIntent o cs)).response = classifierApology := by
  have hd : detectIntent o cs = classifierFallback := by
    cases o <;> simp_all [ClassifierOutcome.failed, detectIntent]
  refine ⟨hd, ?_, ?_, ?_⟩ <;> rw [hd] <;> simp [handleMessage, classifierFallback]

/-- Witness for C8 at a concrete failed classifier call. -/
theorem classifierFailure_degrades_to_chat_witness :
    detectIntent (.requestError "connect ECONNREFUSED") ⟨some "BUY_TICKET", some 1, []⟩
      = classifierFallback
    ∧ (handleMessage envOk ⟨some "BUY_TICKET", some 1, []⟩ "hello??"
        (detectIntent (.requestError "connect ECONNREFUSED")
          ⟨some "BUY_TICKET", some 1, []⟩)).session
      = ⟨some "BUY_TICKET", some 1, []⟩
    ∧ (handleMessage envOk ⟨some "BUY_TICKET", some 1, []⟩ "hello??"
        (detectIntent (.requestError "connect ECONNREFUSED")
          ⟨some "BUY_TICKET", some 1, []⟩)).dispatches = []
    ∧ (handleMessage envOk ⟨some "BUY_TICKET", some 1, []⟩ "hello??"
        (detectIntent (.requestError "connect ECONNREFUSED")
          ⟨some "BUY_TICKET", some 1, []⟩)).response = classifierApology :=
  classifierFailure_degrades_to_chat (.requestError "connect ECONNREFUSED")
    ⟨some "BUY_TICKET", some 1, []⟩ rfl envOk ⟨some "BUY_TICKET", some 1, []⟩ "hello??"

/-- Helper: sorting a strictly chronological message list by timestamp
descending reverses it. -/
theorem mergeSort_desc_of_strict_chron (l : List Msg)
    (h : l.Pairwise (fun a b => a.timestamp < b.timestamp)) :
    l.mergeSort (fun a b => Nat.ble b.timestamp a.timestamp) = l.reverse := by
  have hperm : (l.mergeSort (fun a b => Nat.ble b.timestamp a.timestamp)).Perm l :=
    List.mergeSort_perm l _
  have htrans : ∀ (a b c : Msg), Nat.ble b.timestamp a.timestamp →
      Nat.ble c.timestamp b.timestamp → Nat.ble c.timestamp a.timestamp := by
    intro a b c hab hbc
    simp only [Nat.ble_eq] at *
    omega
  have htotal : ∀ (a b : Msg),
      (Nat.ble b.timestamp a.timestamp || Nat.ble a.timestamp b.timestamp) = true := by
    intro a b
    simp only [Bool.or_eq_true, Nat.ble_eq]
    omega
  have hsorted := List.sorted_mergeSort htrans htotal l
  have hne : (l.mergeSort (fun a b => Nat.ble b.timestamp a.timestamp)).Pairwise
      (fun a b => a.timestamp ≠ b.timestamp) := by
    have h0 : l.Pairwise (fun a b => a.timestamp ≠ b.timestamp) :=
      h.imp Nat.ne_of_lt
    have hsymm : ∀ {x y : Msg}, x.timestamp ≠ y.timestamp → y.timestamp ≠ x.timestamp := by
      intro x y hxy
      exact Ne.symm hxy
    exact (hperm.pairwise_iff hsymm).mpr h0
  have hstrict : (l.mergeSort (fun a b => Nat.ble b.timestamp a.timestamp)).Pairwise
      (fun a b => b.timestamp < a.timestamp) := by
    refine (hsorted.and hne).imp ?_
    rintro a b ⟨hab, hne2⟩
    have hle : b.timestamp ≤ a.timestamp := Nat.le_of_ble_eq_true hab
    omega
  have hrev : l.reverse.Pairwise (fun a b => b.timestamp < a.timestamp) :=
    (List.pairwise_reverse).mpr h
  have hperm2 : (l.mergeSort (fun a b => Nat.ble b.timestamp a.timestamp)).Perm l.reverse :=
    hperm.trans (l.reverse_perm).symm
  haveI : IsAntisymm Msg (fun a b => b.timestamp < a.timestamp) :=
    ⟨fun a b hab hba => absurd (Nat.lt_trans hab hba) (Nat.lt_irrefl _)⟩
  exact List.eq_of_perm_of_sorted hperm2 hstrict hrev

/-- Helper: when the chronological store holds at most limit messages of
the user, hydration returns exactly the chronological user messages. -/
theorem getConversationHistory_eq_filter (store : List Msg) (uid : String) (limit : Nat)
    (h : store.Pairwise (fun a b => a.timestamp < b.timestamp))
    (hlen : (store.filter (fun m => m.userId == uid)).length ≤ limit) :
    getConversationHistory store uid limit = store.filter (fun m => m.userId == uid) := by
  have hf : (store.filter (fun m => m.userId == uid)).Pairwise
      (fun a b => a.timestamp < b.timestamp) := h.filter _
  unfold getConversationHistory
  rw [mergeSort_desc_of_strict_chron _ hf,
    List.take_of_length_le (by simpa using hlen), List.reverse_reverse]

/-- C9: a session hydrates from the store, appends its messages (each
also saved); re-opening for the same user then reproduces exactly the
history of the closed session — same sequence, same order, no duplicates —
and hydration is chronological (oldest to newest) and bounded by the
recent-message limit.  Hypotheses: the saved messages belong to the
user, timestamps are strictly increasing in save order, and the
stored messages of the user fit within the limit. -/
theorem reopen_reproduces_history (store : List Msg) (uid : String) (limit : Nat)
    (ms : List Msg)
    (hchron : (storeAfter store ms).Pairwise (fun a b => a.timestamp < b.timestamp))
    (hms : ∀ m ∈ ms, m.userId = uid)
    (hlen : ((storeAfter store ms).filter (fun m => m.userId == uid)).length ≤ limit) :
    getConversationHistory (storeAfter store ms) uid limit
        = sessionFinalHistory store uid limit ms
    ∧ (getConversationHistory (storeAfter store ms) uid limit).Pairwise
        (fun a b => a.timestamp < b.timestamp)
    ∧ (getConversationHistory (storeAfter store ms) uid limit).Nodup
    ∧ (getConversationHistory (storeAfter store ms) uid limit).length ≤ limit := by
  have hfilter_app : (storeAfter store ms).filter (fun m => m.userId == uid)
      = store.filter (fun m => m.userId == uid) ++ ms := by
    unfold storeAfter
    rw [List.filter_append]
    congr 1
    exact List.filter_eq_self.mpr (fun a ha => by simpa using hms a ha)
  have hstore : store.Pairwise (fun a b => a.timestamp < b.timestamp) := by
    unfold storeAfter at hchron
    exact (List.pairwise_append.mp hchron).1
  have hlen1 : (store.filter (fun m => m.userId == uid)).length ≤ limit := by
    have h2 := hlen
    rw [hfilter_app, List.length_append] at h2
    omega
  have heq2 := getConversationHistory_eq_filter (storeAfter store ms) uid limit hchron hlen
  have heq1 := getConversationHistory_eq_filter store uid limit hstore hlen1
  refine ⟨?_, ?_, ?_, ?_⟩
  · rw [heq2, hfilter_app]
    unfold sessionFinalHistory
    rw [heq1]
  · rw [heq2]
    exact hchron.filter _
  · rw [heq2]
    refine List.Pairwise.imp ?_ (hchron.filter (fun m => m.userId == uid))
    intro a b hab heq
    rw [heq] at hab
    exact Nat.lt_irrefl _ hab
  · rw [heq2]
    exact hlen


/-- Witness for C9: a prior session saved its welcome and two turns; the
re-opened hydration equals the final history of that session. -/
theorem reopen_reproduces_history_witness :
    getConversationHistory
        (storeAfter [⟨"1", "Welcome to Airline Chat! How can I help you today?", 1, "assistant", "u1"⟩]
          [⟨"2", "hi", 2, "user", "u1"⟩, ⟨"3", "Hello!", 3, "assistant", "u1"⟩]) "u1" 20
      = sessionFinalHistory
          [⟨"1", "Welcome to Airline Chat! How can I help you today?", 1, "assistant", "u1"⟩]
          "u1" 20
          [⟨"2", "hi", 2, "user", "u1"⟩, ⟨"3", "Hello!", 3, "assistant", "u1"⟩] :=
  (reopen_reproduces_history
      [⟨"1", "Welcome to Airline Chat! How can I help you today?", 1, "assistant", "u1"⟩]
      "u1" 20
      [⟨"2", "hi", 2, "user", "u1"⟩, ⟨"3", "Hello!", 3, "assistant", "u1"⟩]
      (by decide) (by decide) (by decide)).1

end AirlineChat
